import Mathlib

/-!
Shallow embedding of the OpenImagen image-generation pipeline
(`src/core/imagen_generator.py` and `src/models/data_models.py`).

Python strings are modelled as Lean `String`, byte strings as `List Nat`
(each element a byte value), Python exceptions as the `Except.error`
side of `Except`, and `None`/absent values as `Option`.  The two remote
AI endpoints are modelled as explicit inputs: the text endpoint as an
`Except String (Option String)` outcome and the image endpoint as a
`Transport` function from the attempt index to either a raised error or
a response envelope.
-/

set_option maxRecDepth 20000
set_option maxHeartbeats 2000000
set_option linter.unusedVariables false

namespace OpenImagen

/-! ## Data model (`src/models/data_models.py`) -/

/-- `CompanyData` dataclass: company context for image generation. -/
structure CompanyData where
  name : String
  industry : String
  language : String := "en"
  custom_prompt_instructions : Option String := none

/-- `ImageRequest` dataclass: request for image generation. -/
structure ImageRequest where
  headline : String
  keyword : String
  company_data : CompanyData

/-- `ImageResponse` dataclass: response from image generation. -/
structure ImageResponse where
  success : Bool
  image_url : String := ""
  image_data : Option (List Nat) := none
  alt_text : String := ""
  generation_time_seconds : Nat := 0
  error : Option String := none
  prompt_used : Option String := none
  scene_description : Option String := none

/-! ## Python semantics helpers -/

/-- Python truthiness of an optional string: `None` and `""` are falsy. -/
def truthyStr : Option String → Bool
  | none => false
  | some s => s != ""

/-- Python `a or b` on optional strings: `a` if truthy, else `b`. -/
def pyOrStr (a b : Option String) : Option String :=
  if truthyStr a then a else b

/-- Python substring test on char lists (`needle in haystack`). -/
def isSublist (needle : List Char) : List Char → Bool
  | [] => needle.isEmpty
  | c :: rest => needle.isPrefixOf (c :: rest) || isSublist needle rest

/-- Python `needle in haystack` for strings. -/
def pyIn (needle haystack : String) : Bool :=
  isSublist needle.data haystack.data

/-- Python `str.lower()`: lower-case every character. -/
def pyLower (s : String) : String := ⟨s.data.map Char.toLower⟩

/-! ## API-key lookup (`OpenImagen.__init__` and `_get_api_key`) -/

/-- The three environment variables consulted by `_get_api_key`;
each is `none` when unset. -/
structure EnvVars where
  GOOGLE_API_KEY : Option String
  GEMINI_API_KEY : Option String
  GOOGLE_GEMINI_API_KEY : Option String

/-- `_get_api_key`: ordered `or`-chain over the three environment
variables, first truthy value wins. -/
def get_api_key (env : EnvVars) : Option String :=
  pyOrStr env.GOOGLE_API_KEY
    (pyOrStr env.GEMINI_API_KEY env.GOOGLE_GEMINI_API_KEY)

/-- The `ValueError` message raised by the constructor. -/
def apiKeyErrorMessage : String :=
  "Google API key required. Set GOOGLE_API_KEY environment variable or pass api_key parameter."

/-- The API-key resolution performed by `OpenImagen.__init__`:
`self.api_key = api_key or self._get_api_key()`, then
`if not self.api_key: raise ValueError(...)`. -/
def initApiKey (api_key : Option String) (env : EnvVars) : Except String String :=
  match pyOrStr api_key (get_api_key env) with
  | some s => if s = "" then Except.error apiKeyErrorMessage else Except.ok s
  | none => Except.error apiKeyErrorMessage

/-! ## Response extraction (`_extract_image_from_response`) -/

/-- JPEG magic bytes `FF D8 FF`. -/
def jpegMagic : List Nat := [0xff, 0xd8, 0xff]

/-- PNG magic bytes `89 50 4E 47 0D 0A 1A 0A`. -/
def pngMagic : List Nat := [0x89, 0x50, 0x4e, 0x47, 0x0d, 0x0a, 0x1a, 0x0a]

/-- The acceptance check applied to one inline-data payload:
`isinstance(image_data, bytes) and len(image_data) > 100` and then the
JPEG/PNG magic-byte test (source lines 290-293). -/
def payloadAccepted (b : List Nat) : Bool :=
  decide (b.length > 100) && (b.take 3 == jpegMagic || b.take 8 == pngMagic)

/-- One element of `candidate.content.parts`, as inspected by the
extraction loop: it may lack `inline_data`, lack `inline_data.data`,
hold non-`bytes` data, or hold a byte payload. -/
inductive PartData where
  | noInlineData
  | noDataField
  | nonBytesData
  | bytesData (b : List Nat)

/-- One element of `response.candidates`: whether
`candidate.content.parts` is reachable, and the parts themselves. -/
structure Candidate where
  hasContentParts : Bool
  parts : List PartData

/-- A Gemini response envelope; `none` models a falsy response or one
without a `candidates` attribute. -/
abbrev GenResponse := Option (List Candidate)

/-- Inner loop of `_extract_image_from_response` over one candidate's
parts: first payload passing the acceptance check wins. -/
def extractFromParts : List PartData → Option (List Nat)
  | [] => none
  | PartData.bytesData b :: rest =>
    if payloadAccepted b then some b else extractFromParts rest
  | PartData.noInlineData :: rest => extractFromParts rest
  | PartData.noDataField :: rest => extractFromParts rest
  | PartData.nonBytesData :: rest => extractFromParts rest

/-- Outer loop of `_extract_image_from_response` over candidates. -/
def extractFromCandidates : List Candidate → Option (List Nat)
  | [] => none
  | c :: rest =>
    if c.hasContentParts then
      match extractFromParts c.parts with
      | some b => some b
      | none => extractFromCandidates rest
    else extractFromCandidates rest

/-- `_extract_image_from_response`: extract image bytes from a Gemini
response, or `none` when no part qualifies. -/
def extract_image_from_response : GenResponse → Option (List Nat)
  | none => none
  | some cs => extractFromCandidates cs

/-! ## Retry loop (`_generate_with_retry`) -/

/-- The image endpoint, modelled per attempt index: either a raised
exception (with its message) or a response envelope. -/
abbrev Transport := Nat → Except String GenResponse

/-- The `for attempt in range(max_retries)` loop of
`_generate_with_retry`, with `remaining` iterations left and `attempt`
the current zero-based index.  Returns the outcome (raised error,
image bytes, or `none` after exhaustion), the number of endpoint
invocations, and the list of backoff sleep durations
(`time.sleep(5 * (attempt + 1))`), in order. -/
def retryLoop (transport : Transport) (max_retries : Nat) :
    Nat → Nat → Except String (Option (List Nat)) × Nat × List Nat
  | 0, _ => (Except.ok none, 0, [])
  | remaining + 1, attempt =>
    match transport attempt with
    | Except.ok resp =>
      match extract_image_from_response resp with
      | some b => (Except.ok (some b), 1, [])
      | none =>
        let r := retryLoop transport max_retries remaining (attempt + 1)
        (r.1, r.2.1 + 1, 5 * (attempt + 1) :: r.2.2)
    | Except.error e =>
      if attempt < max_retries - 1 then
        let r := retryLoop transport max_retries remaining (attempt + 1)
        (r.1, r.2.1 + 1, 5 * (attempt + 1) :: r.2.2)
      else (Except.error e, 1, [])

/-- `_generate_with_retry(prompt, max_retries=3)`: run the retry loop
from attempt 0. -/
def generate_with_retry (transport : Transport) (max_retries : Nat := 3) :
    Except String (Option (List Nat)) × Nat × List Nat :=
  retryLoop transport max_retries max_retries 0

/-- Whether one attempt fails to produce an image: the endpoint raised,
or its response contains no acceptable image payload. -/
def attemptFails (r : Except String GenResponse) : Bool :=
  match r with
  | Except.error _ => true
  | Except.ok resp => (extract_image_from_response resp).isNone

/-! ## Fallback scene classifier (`_create_intelligent_fallback`) -/

def techTerms : List String :=
  ["ai", "artificial intelligence", "machine learning", "automation",
   "algorithm", "data", "software", "tech", "digital"]

def managementTerms : List String :=
  ["management", "strategy", "leadership", "business", "operations",
   "planning", "growth"]

def safetyTerms : List String :=
  ["safety", "security", "compliance", "risk", "audit", "quality"]

def customerTerms : List String :=
  ["customer", "service", "support", "client", "user", "experience"]

def financeTerms : List String :=
  ["financial", "finance", "budget", "cost", "roi", "investment", "accounting"]

/-- `any(term in keyword_lower for term in terms)`. -/
def matchesFamily (terms : List String) (keyword_lower : String) : Bool :=
  terms.any (fun t => pyIn t keyword_lower)

def techTemplate (keyword : String) : String :=
  "Professional team collaborating on " ++ keyword ++ " in modern office environment. Multiple screens with data visualizations, authentic working session with natural lighting and lived-in details."

def managementTemplate (keyword : String) : String :=
  "Business professionals engaged in strategic discussion about " ++ keyword ++ ". Conference room setting with whiteboards, documents, and authentic decision-making atmosphere."

def safetyTemplate (keyword : String) : String :=
  "Professional reviewing " ++ keyword ++ " protocols in workplace setting. Documentation, monitoring equipment, and safety-focused environment with natural workflow."

def customerTemplate (keyword : String) : String :=
  "Service professional engaged in " ++ keyword ++ " activities. Customer-facing environment with modern tools, authentic service delivery moment."

def financeTemplate (keyword : String) : String :=
  "Finance professional analyzing " ++ keyword ++ " data at workstation. Multiple monitors with charts and reports, traditional yet modern office environment."

def genericTemplate (keyword : String) : String :=
  "Professional team working on " ++ keyword ++ " project in contemporary workplace. Collaborative environment with modern tools, authentic work session with natural lighting and personal touches."

/-- `_create_intelligent_fallback`: prioritized first-match-wins
classifier over the five keyword families. -/
def create_intelligent_fallback (keyword industry : String) : String :=
  let keyword_lower := pyLower keyword
  if matchesFamily techTerms keyword_lower then techTemplate keyword
  else if matchesFamily managementTerms keyword_lower then managementTemplate keyword
  else if matchesFamily safetyTerms keyword_lower then safetyTemplate keyword
  else if matchesFamily customerTerms keyword_lower then customerTemplate keyword
  else if matchesFamily financeTerms keyword_lower then financeTemplate keyword
  else genericTemplate keyword

/-! ## Scene resolver (`_generate_intelligent_scene`) -/

/-- The characters stripped by Python's no-argument `str.strip()`. -/
def pyWhitespace : List Char :=
  [' ', '\t', '\n', '\r', Char.ofNat 11, Char.ofNat 12]

/-- Python `str.strip(chars)`: drop characters of `cs` from both ends. -/
def stripChars (cs : List Char) (s : List Char) : List Char :=
  ((s.dropWhile (fun c => cs.contains c)).reverse.dropWhile
    (fun c => cs.contains c)).reverse

/-- Normalization applied to a usable remote scene text:
`.strip().strip('"').strip("'")`, then if longer than 200 characters,
truncate to the first 200 characters, cut at the last sentence
boundary (`rsplit('.', 1)[0]`) and append a period. -/
def normalizeSceneText (t : String) : String :=
  let stripped :=
    stripChars ['\''] (stripChars ['"'] (stripChars pyWhitespace t.data))
  if stripped.length > 200 then
    let first200 := stripped.take 200
    let beforeLastDot :=
      if first200.contains '.' then
        ((first200.reverse.dropWhile (fun c => c ≠ '.')).drop 1).reverse
      else first200
    (beforeLastDot ++ ['.']).asString
  else stripped.asString

/-- `_generate_intelligent_scene`: use the remote text endpoint's
response when it raised no error and produced truthy text, otherwise
fall back to the local classifier.  The remote outcome is an explicit
input: `Except.error` models a raised exception, `Except.ok none` a
falsy response or absent text. -/
def generate_intelligent_scene (keyword industry : String)
    (remote : Except String (Option String)) : String :=
  match remote with
  | Except.ok (some t) =>
    if t ≠ "" then normalizeSceneText t
    else create_intelligent_fallback keyword industry
  | _ => create_intelligent_fallback keyword industry

/-! ## Prompt builder (`_build_professional_prompt`) -/

/-- The fixed `prompt_parts` list of `_build_professional_prompt`. -/
def prompt_parts (request : ImageRequest) (scene_description : String) :
    List String :=
  ["Professional editorial photograph for a business article about '" ++ request.keyword ++ "'.",
   "",
   "Scene: " ++ scene_description,
   "",
   "Photography style:",
   "- Professional editorial quality (Canon 5D Mark IV, 35mm f/2.8)",
   "- Natural lighting with soft shadows, not harsh or uniform",
   "- Rule of thirds composition, authentic documentary style",
   "- Shallow depth of field with natural background blur",
   "- Modern color grading with professional warmth",
   "- Subtle film grain for authenticity",
   "",
   "Editorial requirements:",
   "- Candid, authentic moment - not posed or stock-photo-like",
   "- Real workplace environment with natural details",
   "- Professional but approachable atmosphere",
   "- No text, logos, or branding visible in image",
   "- Diverse and inclusive representation when people are shown",
   "",
   "Technical specs: 16:9 landscape, high resolution, editorial quality",
   "Style reference: Bloomberg Businessweek, Harvard Business Review"]

/-- `_build_professional_prompt`: the parts list, extended with the
additional-requirements section when `custom_prompt_instructions` is
truthy, joined with newlines. -/
def build_professional_prompt (request : ImageRequest)
    (scene_description : String) : String :=
  let base := prompt_parts request scene_description
  let all :=
    match request.company_data.custom_prompt_instructions with
    | some s =>
      if s != "" then base ++ ["", "Additional requirements: " ++ s] else base
    | none => base
  String.intercalate "\n" all

/-! ## Alt text (`_generate_alt_text`) -/

/-- `_generate_alt_text`: prefix the headline, hard-cap at 125
characters with a three-character ellipsis. -/
def generate_alt_text (request : ImageRequest) : String :=
  let alt_text := "Professional editorial image: " ++ request.headline
  if alt_text.length > 125 then (alt_text.data.take 122).asString ++ "..."
  else alt_text

/-! ## Base64 (Python `base64.b64encode` on the image bytes) -/

def base64Chars : List Char :=
  "ABCDEFGHIJKLMNOPQRSTUVWXYZabcdefghijklmnopqrstuvwxyz0123456789+/".data

def b64Char (n : Nat) : Char := base64Chars.getD n '?'

def b64Index (c : Char) : Nat := base64Chars.indexOf c

/-- Standard base64 encoding of a byte list. -/
def base64Encode : List Nat → List Char
  | [] => []
  | [a] => [b64Char (a / 4), b64Char (a % 4 * 16), '=', '=']
  | [a, b] =>
    [b64Char (a / 4), b64Char (a % 4 * 16 + b / 16), b64Char (b % 16 * 4), '=']
  | a :: b :: c :: rest =>
    b64Char (a / 4) :: b64Char (a % 4 * 16 + b / 16) ::
      b64Char (b % 16 * 4 + c / 64) :: b64Char (c % 64) :: base64Encode rest

/-- Standard base64 decoding of a character list. -/
def base64Decode : List Char → List Nat
  | a :: b :: c :: d :: rest =>
    if c = '=' then [b64Index a * 4 + b64Index b / 16]
    else if d = '=' then
      [b64Index a * 4 + b64Index b / 16, b64Index b % 16 * 16 + b64Index c / 4]
    else
      (b64Index a * 4 + b64Index b / 16) :: (b64Index b % 16 * 16 + b64Index c / 4) ::
        (b64Index c % 4 * 64 + b64Index d) :: base64Decode rest
  | _ => []

/-! ## Facade (`generate_image`) -/

/-- `generate_image`: resolve the scene, build the prompt, run the
retried image request, and package the result.  `remote` is the text
endpoint's outcome, `transport` the image endpoint, and `elapsed` the
measured wall-clock duration (`time.time() - start_time`). -/
def generate_image (request : ImageRequest)
    (remote : Except String (Option String)) (transport : Transport)
    (elapsed : Nat) : ImageResponse :=
  let scene_description :=
    generate_intelligent_scene request.keyword request.company_data.industry remote
  let prompt := build_professional_prompt request scene_description
  match (generate_with_retry transport 3).1 with
  | Except.error e =>
    { success := false, error := some e, generation_time_seconds := elapsed }
  | Except.ok none =>
    { success := false, error := some "Failed to generate image after retries",
      generation_time_seconds := elapsed }
  | Except.ok (some image_data) =>
    { success := true,
      image_data := some image_data,
      image_url := "data:image/jpeg;base64," ++ (base64Encode image_data).asString,
      alt_text := generate_alt_text request,
      generation_time_seconds := elapsed,
      prompt_used := some prompt,
      scene_description := some scene_description }

/-! ## Concrete sample inputs used by witnesses -/

/-- A sample request with no custom prompt instructions. -/
def sampleRequest : ImageRequest :=
  { headline := "AI Revolution in Healthcare",
    keyword := "machine learning",
    company_data :=
      { name := "MedTech AI", industry := "Healthcare Technology" } }

/-- A JPEG payload of 101 bytes: the JPEG magic followed by zero bytes. -/
def sampleJpeg : List Nat := 0xff :: 0xd8 :: 0xff :: List.replicate 98 0

/-- A PNG payload of 101 bytes: the PNG magic followed by zero bytes. -/
def samplePng : List Nat := pngMagic ++ List.replicate 93 0

/-- A response envelope holding a single byte payload. -/
def singlePayloadResponse (b : List Nat) : GenResponse :=
  some [{ hasContentParts := true, parts := [PartData.bytesData b] }]

/-- A 96-character headline. -/
def headline96 : String := (List.replicate 96 'a').asString

/-- A request whose company data carries empty-string (supplied but
falsy) custom prompt instructions. -/
def emptyInstructionsRequest : ImageRequest :=
  { headline := "h", keyword := "kw",
    company_data :=
      { name := "Co", industry := "Ind",
        custom_prompt_instructions := some "" } }

/-- A transport that raises on the first two attempts and returns a
valid JPEG response on the third. -/
def failTwiceTransport : Transport := fun n =>
  if n < 2 then Except.error "transient" else Except.ok (singlePayloadResponse sampleJpeg)

end OpenImagen

namespace OpenImagen

/-! ## Theorems -/

/-- **C1.** For every byte payload encountered by the
response-extraction check: a payload whose first three bytes are the
JPEG magic bytes `FF D8 FF` and whose length exceeds 100 bytes is
accepted (returned as the extracted image bytes), and a payload that
fails both the JPEG and PNG magic-byte prefix checks, or that is under
100 bytes, is rejected (treated as no image found). -/
theorem extraction_check_accepts_jpeg_rejects_bad (b : List Nat) :
    (b.take 3 = jpegMagic → b.length > 100 →
      payloadAccepted b = true ∧
      extract_image_from_response (singlePayloadResponse b) = some b) ∧
    ((b.take 3 ≠ jpegMagic ∧ b.take 8 ≠ pngMagic) ∨ b.length < 100 →
      payloadAccepted b = false ∧
      extract_image_from_response (singlePayloadResponse b) = none) := by
  constructor
  · intro hmagic hlen
    have hacc : payloadAccepted b = true := by
      simp [payloadAccepted, hmagic, hlen]
    exact ⟨hacc, by
      simp [extract_image_from_response, singlePayloadResponse,
        extractFromCandidates, extractFromParts, hacc]⟩
  · intro h
    have hacc : payloadAccepted b = false := by
      rcases h with ⟨hj, hp⟩ | hlen
      · simp [payloadAccepted, hj, hp]
      · have hlt : ¬ (b.length > 100) := by omega
        simp [payloadAccepted, hlt]
    exact ⟨hacc, by
      simp [extract_image_from_response, singlePayloadResponse,
        extractFromCandidates, extractFromParts, hacc]⟩

/-- Witness for C1 at concrete payloads: the 101-byte JPEG sample is
accepted, and the all-zero 101-byte payload (valid length, bad magic)
is rejected. -/
theorem extraction_check_accepts_jpeg_rejects_bad_witness :
    (payloadAccepted sampleJpeg = true ∧
      extract_image_from_response (singlePayloadResponse sampleJpeg) = some sampleJpeg) ∧
    (payloadAccepted (List.replicate 101 0) = false ∧
      extract_image_from_response (singlePayloadResponse (List.replicate 101 0)) = none) :=
  ⟨(extraction_check_accepts_jpeg_rejects_bad sampleJpeg).1 (by decide) (by decide),
   (extraction_check_accepts_jpeg_rejects_bad (List.replicate 101 0)).2
     (Or.inl ⟨by decide, by decide⟩)⟩

/-- **C4.** The fallback scene classifier is the prioritized
first-match-wins function over the five ordered keyword families
tech > management > safety > customer > finance: the first family whose
term set matches the lower-cased keyword determines the returned
templated sentence with the original keyword substituted, and a keyword
matching no family yields the generic template.  The classifier is a
total Lean function, so it never fails and performs no network call. -/
theorem fallback_first_match_wins (keyword industry : String) :
    (matchesFamily techTerms (pyLower keyword) = true →
      create_intelligent_fallback keyword industry = techTemplate keyword) ∧
    (matchesFamily techTerms (pyLower keyword) = false →
     matchesFamily managementTerms (pyLower keyword) = true →
      create_intelligent_fallback keyword industry = managementTemplate keyword) ∧
    (matchesFamily techTerms (pyLower keyword) = false →
     matchesFamily managementTerms (pyLower keyword) = false →
     matchesFamily safetyTerms (pyLower keyword) = true →
      create_intelligent_fallback keyword industry = safetyTemplate keyword) ∧
    (matchesFamily techTerms (pyLower keyword) = false →
     matchesFamily managementTerms (pyLower keyword) = false →
     matchesFamily safetyTerms (pyLower keyword) = false →
     matchesFamily customerTerms (pyLower keyword) = true →
      create_intelligent_fallback keyword industry = customerTemplate keyword) ∧
    (matchesFamily techTerms (pyLower keyword) = false →
     matchesFamily managementTerms (pyLower keyword) = false →
     matchesFamily safetyTerms (pyLower keyword) = false →
     matchesFamily customerTerms (pyLower keyword) = false →
     matchesFamily financeTerms (pyLower keyword) = true →
      create_intelligent_fallback keyword industry = financeTemplate keyword) ∧
    (matchesFamily techTerms (pyLower keyword) = false →
     matchesFamily managementTerms (pyLower keyword) = false →
     matchesFamily safetyTerms (pyLower keyword) = false →
     matchesFamily customerTerms (pyLower keyword) = false →
     matchesFamily financeTerms (pyLower keyword) = false →
      create_intelligent_fallback keyword industry = genericTemplate keyword) := by
  refine ⟨?_, ?_, ?_, ?_, ?_, ?_⟩ <;>
    (intros; simp [create_intelligent_fallback, *])

/-- Witness for C4: "machine learning safety" matches the tech family
first (even though it also contains the safety term "safety"), and
"gardening" matches no family, yielding the generic template. -/
theorem fallback_first_match_wins_witness :
    (matchesFamily safetyTerms (pyLower "machine learning safety") = true ∧
      create_intelligent_fallback "machine learning safety" "Farming" =
        techTemplate "machine learning safety") ∧
    create_intelligent_fallback "gardening" "Farming" = genericTemplate "gardening" :=
  ⟨⟨by decide,
    (fallback_first_match_wins "machine learning safety" "Farming").1 (by decide)⟩,
   (fallback_first_match_wins "gardening" "Farming").2.2.2.2.2
     (by decide) (by decide) (by decide) (by decide) (by decide)⟩

/-- **C6 counterexample.** The claim "for every headline of length at
most 97, the generated alt text equals
`"Professional editorial image: " + headline` untruncated" fails at a
96-character headline: the prefix is 30 characters, so the combined
string has 126 characters and is truncated. -/
theorem alt_text_97_boundary_counterexample :
    headline96.length ≤ 97 ∧
    generate_alt_text
        { headline := headline96, keyword := "k",
          company_data := { name := "n", industry := "i" } } ≠
      "Professional editorial image: " ++ headline96 := by
  constructor
  · decide
  · decide

/-- **C6 (amended).** For every headline of length at most 95, the
generated alt text equals `"Professional editorial image: "` followed
by the headline, untruncated; for every longer headline the alt text is
exactly 125 characters and ends with the 3-character suffix `"..."`. -/
theorem alt_text_truncation (request : ImageRequest) :
    (request.headline.length ≤ 95 →
      generate_alt_text request =
        "Professional editorial image: " ++ request.headline) ∧
    (95 < request.headline.length →
      (generate_alt_text request).length = 125 ∧
      (generate_alt_text request).data.drop 122 = ['.', '.', '.']) := by
  have hpre : ("Professional editorial image: " : String).length = 30 := rfl
  have hdl :
      ("Professional editorial image: " ++ request.headline).data.length =
        30 + request.headline.length := by
    show ("Professional editorial image: " ++ request.headline).length = _
    rw [String.length_append, hpre]
  constructor
  · intro h
    have hle : ¬ (("Professional editorial image: " ++ request.headline).length > 125) := by
      rw [String.length_append, hpre]; omega
    simp only [generate_alt_text]
    rw [if_neg hle]
  · intro h
    have hgt : ("Professional editorial image: " ++ request.headline).length > 125 := by
      rw [String.length_append, hpre]; omega
    have htake :
        (("Professional editorial image: " ++ request.headline).data.take 122).length
          = 122 := by
      rw [List.length_take]; omega
    constructor
    · show (generate_alt_text request).length = 125
      simp only [generate_alt_text, if_pos hgt]
      rw [String.length_append]
      have h1 :
          ((("Professional editorial image: " ++ request.headline).data.take 122).asString).length
            = 122 := htake
      rw [h1]
      rfl
    · simp only [generate_alt_text, if_pos hgt]
      rw [String.data_append]
      have h2 :
          ((("Professional editorial image: " ++ request.headline).data.take 122).asString).data
            = ("Professional editorial image: " ++ request.headline).data.take 122 := rfl
      rw [h2]
      have h3 := List.drop_left
        (("Professional editorial image: " ++ request.headline).data.take 122)
        (("..." : String).data)
      rw [htake] at h3
      rw [h3]

/-- Witness for the amended C6 at a concrete short and a concrete long
headline. -/
theorem alt_text_truncation_witness :
    generate_alt_text sampleRequest =
      "Professional editorial image: AI Revolution in Healthcare" ∧
    (generate_alt_text
        { headline := headline96, keyword := "k",
          company_data := { name := "n", industry := "i" } }).length = 125 :=
  ⟨by
    have h := (alt_text_truncation sampleRequest).1 (by decide)
    rw [h]
    rfl,
   ((alt_text_truncation
      { headline := headline96, keyword := "k",
        company_data := { name := "n", industry := "i" } }).2 (by decide)).1⟩

/-- One step of the retry loop when the endpoint returns a response
holding an acceptable image: the loop returns immediately. -/
theorem retryLoop_step_image (t : Transport) (m remaining attempt : Nat)
    (resp : GenResponse) (b : List Nat)
    (hc : t attempt = Except.ok resp)
    (hb : extract_image_from_response resp = some b) :
    retryLoop t m (remaining + 1) attempt = (Except.ok (some b), 1, []) := by
  simp [retryLoop, hc, hb]

/-- One step of the retry loop when the endpoint returns a response
with no acceptable image: the loop sleeps and retries (even on the
final attempt). -/
theorem retryLoop_step_noimage (t : Transport) (m remaining attempt : Nat)
    (resp : GenResponse)
    (hc : t attempt = Except.ok resp)
    (hb : extract_image_from_response resp = none) :
    retryLoop t m (remaining + 1) attempt =
      ((retryLoop t m remaining (attempt + 1)).1,
       (retryLoop t m remaining (attempt + 1)).2.1 + 1,
       5 * (attempt + 1) :: (retryLoop t m remaining (attempt + 1)).2.2) := by
  simp [retryLoop, hc, hb]

/-- One step of the retry loop when the endpoint raises on a non-final
attempt: the loop sleeps and retries. -/
theorem retryLoop_step_error (t : Transport) (m remaining attempt : Nat)
    (e : String)
    (hc : t attempt = Except.error e)
    (hlt : attempt < m - 1) :
    retryLoop t m (remaining + 1) attempt =
      ((retryLoop t m remaining (attempt + 1)).1,
       (retryLoop t m remaining (attempt + 1)).2.1 + 1,
       5 * (attempt + 1) :: (retryLoop t m remaining (attempt + 1)).2.2) := by
  simp [retryLoop, hc, hlt]

/-- One step of the retry loop when the endpoint raises on the final
attempt: the error is re-raised. -/
theorem retryLoop_step_error_last (t : Transport) (m remaining attempt : Nat)
    (e : String)
    (hc : t attempt = Except.error e)
    (hge : ¬ attempt < m - 1) :
    retryLoop t m (remaining + 1) attempt = (Except.error e, 1, []) := by
  simp [retryLoop, hc, hge]

/-- **C7.** For every transport stub that fails on attempts 1 and 2
(raising or yielding no image) and succeeds on attempt 3,
`_generate_with_retry` with `max_retries = 3` returns the successful
image bytes, invokes the stub exactly 3 times, and performs exactly two
intervening backoff waits of 5 and 10 time-units. -/
theorem retry_two_failures_then_success (transport : Transport)
    (resp : GenResponse) (b : List Nat)
    (h0 : attemptFails (transport 0) = true)
    (h1 : attemptFails (transport 1) = true)
    (h2 : transport 2 = Except.ok resp)
    (hb : extract_image_from_response resp = some b) :
    generate_with_retry transport 3 = (Except.ok (some b), 3, [5, 10]) := by
  have step2 : retryLoop transport 3 1 2 = (Except.ok (some b), 1, []) :=
    retryLoop_step_image transport 3 0 2 resp b h2 hb
  have step1 : retryLoop transport 3 2 1 = (Except.ok (some b), 2, [10]) := by
    rcases hc : transport 1 with e | r
    · rw [retryLoop_step_error transport 3 1 1 e hc (by omega), step2]
    · have hr : extract_image_from_response r = none := by
        have hf := h1
        rw [hc] at hf
        simpa [attemptFails, Option.isNone_iff_eq_none] using hf
      rw [retryLoop_step_noimage transport 3 1 1 r hc hr, step2]
  have step0 : retryLoop transport 3 3 0 = (Except.ok (some b), 3, [5, 10]) := by
    rcases hc : transport 0 with e | r
    · rw [retryLoop_step_error transport 3 2 0 e hc (by omega), step1]
    · have hr : extract_image_from_response r = none := by
        have hf := h0
        rw [hc] at hf
        simpa [attemptFails, Option.isNone_iff_eq_none] using hf
      rw [retryLoop_step_noimage transport 3 2 0 r hc hr, step1]
  simpa [generate_with_retry] using step0

/-- Witness for C7: a concrete transport raising twice and then
returning the sample JPEG. -/
theorem retry_two_failures_then_success_witness :
    generate_with_retry failTwiceTransport 3 =
      (Except.ok (some sampleJpeg), 3, [5, 10]) :=
  retry_two_failures_then_success failTwiceTransport
    (singlePayloadResponse sampleJpeg) sampleJpeg
    (by decide) (by decide) rfl (by decide)

/-- Exhaustion behaviour of the retry loop, for any suffix of the loop
whose earlier attempts all fail: a raised error on the final attempt is
re-raised, while a final response with no image yields `Except.ok none`
after the loop runs out. -/
theorem retryLoop_exhaustion (t : Transport) (m : Nat) (e : String)
    (resp : GenResponse) :
    ∀ remaining attempt, remaining + attempt = m → 0 < remaining →
    (∀ i, attempt ≤ i → i < m - 1 → attemptFails (t i) = true) →
    ((t (m - 1) = Except.error e →
        (retryLoop t m remaining attempt).1 = Except.error e) ∧
     (t (m - 1) = Except.ok resp → extract_image_from_response resp = none →
        (retryLoop t m remaining attempt).1 = Except.ok none)) := by
  intro remaining
  induction remaining with
  | zero => intro attempt _ h0 _; omega
  | succ r ih =>
    intro attempt hsum _ hfail
    rcases Nat.lt_or_ge attempt (m - 1) with hlt | hge
    · -- a non-final attempt, known to fail: step and recurse
      have hstep :
          (retryLoop t m (r + 1) attempt).1 =
            (retryLoop t m r (attempt + 1)).1 := by
        rcases hc : t attempt with e' | resp'
        · rw [retryLoop_step_error t m r attempt e' hc hlt]
        · have hr : extract_image_from_response resp' = none := by
            have hf := hfail attempt (Nat.le_refl _) hlt
            rw [hc] at hf
            simpa [attemptFails, Option.isNone_iff_eq_none] using hf
          rw [retryLoop_step_noimage t m r attempt resp' hc hr]
      have hr : 0 < r := by omega
      have hrec := ih (attempt + 1) (by omega) hr
        (fun i hi hilt => hfail i (by omega) hilt)
      exact ⟨fun he => by rw [hstep]; exact hrec.1 he,
             fun hok hnone => by rw [hstep]; exact hrec.2 hok hnone⟩
    · -- the final attempt: attempt = m - 1 and one iteration remains
      have hlast : attempt = m - 1 := by omega
      constructor
      · intro he
        rw [retryLoop_step_error_last t m r attempt e (hlast ▸ he) (by omega)]
      · intro hok hnone
        rw [retryLoop_step_noimage t m r attempt resp (hlast ▸ hok) hnone]
        have hr0 : r = 0 := by omega
        subst hr0
        rfl

/-- **C8.** Retry exhaustion is asymmetric: in every run of
`_generate_with_retry` that reaches the final attempt (all earlier
attempts failed), a transport exception on the final attempt is
propagated to the caller as that last error, whereas a final attempt
that completes but yields no image makes the loop return `None` rather
than raise. -/
theorem retry_exhaustion_asymmetry (transport : Transport)
    (max_retries : Nat) (e : String) (resp : GenResponse)
    (hpos : 0 < max_retries)
    (hfail : ∀ i, i < max_retries - 1 → attemptFails (transport i) = true) :
    (transport (max_retries - 1) = Except.error e →
      (generate_with_retry transport max_retries).1 = Except.error e) ∧
    (transport (max_retries - 1) = Except.ok resp →
      extract_image_from_response resp = none →
      (generate_with_retry transport max_retries).1 = Except.ok none) := by
  have h := retryLoop_exhaustion transport max_retries e resp max_retries 0
    (by omega) hpos (fun i _ hilt => hfail i hilt)
  exact ⟨fun he => h.1 he, fun hok hnone => h.2 hok hnone⟩

/-- Witness for C8: with `max_retries = 3`, a transport that always
raises propagates the last error, and a transport that always returns
an imageless response yields `Except.ok none`. -/
theorem retry_exhaustion_asymmetry_witness :
    (generate_with_retry (fun _ => Except.error "boom") 3).1 =
      Except.error "boom" ∧
    (generate_with_retry (fun _ => Except.ok (none : GenResponse)) 3).1 =
      Except.ok none :=
  ⟨(retry_exhaustion_asymmetry (fun _ => Except.error "boom") 3 "boom" none
      (by omega) (fun i _ => rfl)).1 rfl,
   (retry_exhaustion_asymmetry (fun _ => Except.ok (none : GenResponse)) 3
      "unused" none (by omega) (fun i _ => rfl)).2 rfl rfl⟩

/-- An accepted payload is longer than 100 bytes and carries a JPEG or
PNG magic-byte prefix. -/
theorem payloadAccepted_spec (b : List Nat) (h : payloadAccepted b = true) :
    100 < b.length ∧ (b.take 3 = jpegMagic ∨ b.take 8 = pngMagic) := by
  simp only [payloadAccepted, Bool.and_eq_true, Bool.or_eq_true,
    decide_eq_true_eq, beq_iff_eq] at h
  exact h

/-- Any payload returned by the parts loop passed the acceptance check. -/
theorem extractFromParts_accepted (b : List Nat) :
    ∀ ps : List PartData, extractFromParts ps = some b →
      payloadAccepted b = true := by
  intro ps
  induction ps with
  | nil => intro h; simp [extractFromParts] at h
  | cons p rest ih =>
    intro h
    cases p with
    | bytesData b' =>
      by_cases hacc : payloadAccepted b' = true
      · rw [extractFromParts, if_pos hacc] at h
        cases h
        exact hacc
      · rw [extractFromParts,
          if_neg (by simpa using hacc)] at h
        exact ih h
    | noInlineData => rw [extractFromParts] at h; exact ih h
    | noDataField => rw [extractFromParts] at h; exact ih h
    | nonBytesData => rw [extractFromParts] at h; exact ih h

/-- Any payload returned by the candidates loop passed the acceptance
check. -/
theorem extractFromCandidates_accepted (b : List Nat) :
    ∀ cs : List Candidate, extractFromCandidates cs = some b →
      payloadAccepted b = true := by
  intro cs
  induction cs with
  | nil => intro h; simp [extractFromCandidates] at h
  | cons c rest ih =>
    intro h
    rw [extractFromCandidates] at h
    by_cases hp : c.hasContentParts = true
    · rw [if_pos hp] at h
      rcases hx : extractFromParts c.parts with _ | b'
      · rw [hx] at h
        exact ih h
      · rw [hx] at h
        cases h
        exact extractFromParts_accepted _ _ hx
    · rw [if_neg hp] at h
      exact ih h

/-- Any payload extracted from a response passed the acceptance check. -/
theorem extract_accepted (r : GenResponse) (b : List Nat)
    (h : extract_image_from_response r = some b) :
    payloadAccepted b = true := by
  cases r with
  | none => simp [extract_image_from_response] at h
  | some cs => exact extractFromCandidates_accepted b cs h

/-- Any image bytes produced by the retry loop passed the acceptance
check. -/
theorem retryLoop_some_accepted (t : Transport) (m : Nat) (b : List Nat) :
    ∀ remaining attempt,
      (retryLoop t m remaining attempt).1 = Except.ok (some b) →
      payloadAccepted b = true := by
  intro remaining
  induction remaining with
  | zero => intro attempt h; simp [retryLoop] at h
  | succ r ih =>
    intro attempt h
    rcases hc : t attempt with e | resp
    · by_cases hlt : attempt < m - 1
      · rw [retryLoop_step_error t m r attempt e hc hlt] at h
        exact ih (attempt + 1) h
      · rw [retryLoop_step_error_last t m r attempt e hc hlt] at h
        cases h
    · rcases hx : extract_image_from_response resp with _ | b'
      · rw [retryLoop_step_noimage t m r attempt resp hc hx] at h
        exact ih (attempt + 1) h
      · rw [retryLoop_step_image t m r attempt resp b' hc hx] at h
        cases h
        exact extract_accepted resp b hx

/-- **C2.** For every `ImageResponse` returned by the facade's
`generate_image`: `success = true` holds iff `image_data` is non-empty
and carries a recognized JPEG or PNG magic-byte signature, and
`success = false` holds iff the `error` field is set; there is no
partial-success state. -/
theorem generate_image_success_invariant (request : ImageRequest)
    (remote : Except String (Option String)) (transport : Transport)
    (elapsed : Nat) :
    ((generate_image request remote transport elapsed).success = true ↔
      ∃ b, (generate_image request remote transport elapsed).image_data = some b ∧
        b ≠ [] ∧ (b.take 3 = jpegMagic ∨ b.take 8 = pngMagic)) ∧
    ((generate_image request remote transport elapsed).success = false ↔
      (generate_image request remote transport elapsed).error ≠ none) := by
  rcases h : (generate_with_retry transport 3).1 with e | ob
  · constructor <;> simp [generate_image, h]
  · cases ob with
    | none => constructor <;> simp [generate_image, h]
    | some b =>
      have hacc := retryLoop_some_accepted transport 3 b 3 0 h
      have hspec := payloadAccepted_spec b hacc
      have hne : b ≠ [] := by
        intro hnil
        rw [hnil] at hspec
        simp at hspec
      constructor
      · simp only [generate_image, h]
        constructor
        · intro _
          exact ⟨b, rfl, hne, hspec.2⟩
        · intro _
          trivial
      · simp [generate_image, h]

/-- Looking up a base64 alphabet character recovers its index. -/
theorem b64Index_b64Char : ∀ n, n < 64 → b64Index (b64Char n) = n := by decide

/-- No base64 alphabet character is the padding character. -/
theorem b64Char_ne_pad : ∀ n, n < 64 → b64Char n ≠ '=' := by decide

/-- Decoding inverts encoding on byte lists. -/
theorem base64_roundtrip :
    ∀ l : List Nat, (∀ x ∈ l, x < 256) →
      base64Decode (base64Encode l) = l
  | [] => fun _ => rfl
  | [a] => fun h => by
    have ha : a < 256 := h a (by simp)
    have e1 := b64Index_b64Char (a / 4) (by omega)
    have e2 := b64Index_b64Char (a % 4 * 16) (by omega)
    simp only [base64Encode, base64Decode, eq_self_iff_true, if_true, e1, e2]
    have v1 : a / 4 * 4 + a % 4 * 16 / 16 = a := by omega
    rw [v1]
  | [a, b] => fun h => by
    have ha : a < 256 := h a (by simp)
    have hb : b < 256 := h b (by simp)
    have e1 := b64Index_b64Char (a / 4) (by omega)
    have e2 := b64Index_b64Char (a % 4 * 16 + b / 16) (by omega)
    have e3 := b64Index_b64Char (b % 16 * 4) (by omega)
    have ne3 := b64Char_ne_pad (b % 16 * 4) (by omega)
    simp only [base64Encode, base64Decode, if_neg ne3, eq_self_iff_true, if_true,
      e1, e2, e3]
    have v1 : a / 4 * 4 + (a % 4 * 16 + b / 16) / 16 = a := by omega
    have v2 : (a % 4 * 16 + b / 16) % 16 * 16 + b % 16 * 4 / 4 = b := by omega
    rw [v1, v2]
  | a :: b :: c :: rest => fun h => by
    have ha : a < 256 := h a (by simp)
    have hb : b < 256 := h b (by simp)
    have hc : c < 256 := h c (by simp)
    have e1 := b64Index_b64Char (a / 4) (by omega)
    have e2 := b64Index_b64Char (a % 4 * 16 + b / 16) (by omega)
    have e3 := b64Index_b64Char (b % 16 * 4 + c / 64) (by omega)
    have e4 := b64Index_b64Char (c % 64) (by omega)
    have ne3 := b64Char_ne_pad (b % 16 * 4 + c / 64) (by omega)
    have ne4 := b64Char_ne_pad (c % 64) (by omega)
    have ih := base64_roundtrip rest (fun x hx => h x (by simp [hx]))
    simp only [base64Encode, base64Decode, if_neg ne3, if_neg ne4, e1, e2, e3, e4, ih]
    have v1 : a / 4 * 4 + (a % 4 * 16 + b / 16) / 16 = a := by omega
    have v2 : (a % 4 * 16 + b / 16) % 16 * 16 + (b % 16 * 4 + c / 64) / 4 = b := by omega
    have v3 : (b % 16 * 4 + c / 64) % 4 * 64 + c % 64 = c := by omega
    rw [v1, v2, v3]

/-- **C9.** For every success response produced by `generate_image`,
`image_url` equals `"data:image/jpeg;base64,"` concatenated with the
base64 encoding of `image_data`, and base64-decoding the part after the
comma yields exactly `image_data`; the MIME label is always
`image/jpeg`, regardless of which signature validated the bytes. -/
theorem success_data_uri_roundtrip (request : ImageRequest)
    (remote : Except String (Option String)) (transport : Transport)
    (elapsed : Nat) (b : List Nat)
    (h : (generate_image request remote transport elapsed).image_data = some b)
    (hbytes : ∀ x ∈ b, x < 256) :
    (generate_image request remote transport elapsed).success = true ∧
    (generate_image request remote transport elapsed).image_url =
      "data:image/jpeg;base64," ++ (base64Encode b).asString ∧
    base64Decode (base64Encode b) = b := by
  rcases hr : (generate_with_retry transport 3).1 with e | ob
  · exfalso
    simp [generate_image, hr] at h
  · cases ob with
    | none =>
      exfalso
      simp [generate_image, hr] at h
    | some b' =>
      have hbb : b' = b := by
        simp only [generate_image, hr] at h
        exact Option.some.inj h
      subst hbb
      exact ⟨by simp [generate_image, hr],
             by simp [generate_image, hr],
             base64_roundtrip _ hbytes⟩

/-- Witness for C9: a transport returning the sample PNG payload; the
data URI is still labelled `image/jpeg` and the base64 round-trip
recovers the payload. -/
theorem success_data_uri_roundtrip_witness :
    (generate_image sampleRequest (Except.error "scene down")
        (fun _ => Except.ok (singlePayloadResponse samplePng)) 1).image_data =
      some samplePng ∧
    (generate_image sampleRequest (Except.error "scene down")
        (fun _ => Except.ok (singlePayloadResponse samplePng)) 1).image_url =
      "data:image/jpeg;base64," ++ (base64Encode samplePng).asString ∧
    base64Decode (base64Encode samplePng) = samplePng := by
  have h : (generate_image sampleRequest (Except.error "scene down")
      (fun _ => Except.ok (singlePayloadResponse samplePng)) 1).image_data =
      some samplePng := by decide
  have hw := success_data_uri_roundtrip sampleRequest (Except.error "scene down")
    (fun _ => Except.ok (singlePayloadResponse samplePng)) 1 samplePng h
    (by decide)
  exact ⟨h, hw.2.1, hw.2.2⟩

/-- **C3.** For every request and every exception raised inside the
generation pipeline, the facade's `generate_image` does not propagate
it: it returns a failure response with `success = false`, `error` equal
to the exception's message, and the elapsed time recorded.  The remote
scene outcome is arbitrary (including a raised scene exception, which
the resolver absorbs); the retried image request is the one pipeline
stage whose exception reaches the facade boundary.  `generate_image`
is a total function into `ImageResponse`, so no exception crosses it. -/
theorem generate_image_error_boundary (request : ImageRequest)
    (remote : Except String (Option String)) (transport : Transport)
    (elapsed : Nat) (e : String)
    (h : (generate_with_retry transport 3).1 = Except.error e) :
    generate_image request remote transport elapsed =
      { success := false, error := some e,
        generation_time_seconds := elapsed } := by
  simp [generate_image, h]

/-- Witness for C3: a concrete request whose transport always raises
and whose scene endpoint also raises; the facade returns the failure
response carrying the transport's final message. -/
theorem generate_image_error_boundary_witness :
    generate_image sampleRequest (Except.error "scene down")
        (fun _ => Except.error "quota exhausted") 7 =
      { success := false, error := some "quota exhausted",
        generation_time_seconds := 7 } :=
  generate_image_error_boundary sampleRequest (Except.error "scene down")
    (fun _ => Except.error "quota exhausted") 7 "quota exhausted" rfl

/-- Truthiness distributes over the Python `or` chain. -/
theorem truthyStr_pyOrStr (a b : Option String) :
    truthyStr (pyOrStr a b) = (truthyStr a || truthyStr b) := by
  rcases h : truthyStr a
  · simp [pyOrStr, h]
  · simp [pyOrStr, h]

/-- An empty-string parameter and an absent parameter resolve the API
key identically. -/
theorem initApiKey_empty_param (env : EnvVars) :
    initApiKey (some "") env = initApiKey none env := rfl

/-- With no parameter, resolution reduces to the environment lookup. -/
theorem initApiKey_none_eq (env : EnvVars) :
    initApiKey none env =
      match get_api_key env with
      | some s => if s = "" then Except.error apiKeyErrorMessage else Except.ok s
      | none => Except.error apiKeyErrorMessage := rfl

/-- Construction fails exactly when the environment lookup is falsy. -/
theorem initApiKey_error_iff (env : EnvVars) :
    initApiKey none env = Except.error apiKeyErrorMessage ↔
      truthyStr (get_api_key env) = false := by
  rw [initApiKey_none_eq]
  rcases hk : get_api_key env with _ | s
  · simp [truthyStr]
  · by_cases hs : s = ""
    · subst hs
      simp [truthyStr]
    · simp [truthyStr, hs]

/-- **C10.** An empty-string `api_key` parameter is treated the same as
an absent one: the constructor falls through to the ordered
environment-variable lookup (`GOOGLE_API_KEY`, then `GEMINI_API_KEY`,
then `GOOGLE_GEMINI_API_KEY`, first non-empty wins), and raises a
`ValueError` immediately iff all three are also empty or unset. -/
theorem empty_api_key_falls_through (g ge gg : Option String) :
    (initApiKey (some "") ⟨g, ge, gg⟩ = initApiKey none ⟨g, ge, gg⟩) ∧
    (∀ s, g = some s → s ≠ "" →
      initApiKey (some "") ⟨g, ge, gg⟩ = Except.ok s) ∧
    (truthyStr g = false → ∀ s, ge = some s → s ≠ "" →
      initApiKey (some "") ⟨g, ge, gg⟩ = Except.ok s) ∧
    (truthyStr g = false → truthyStr ge = false → ∀ s, gg = some s → s ≠ "" →
      initApiKey (some "") ⟨g, ge, gg⟩ = Except.ok s) ∧
    (initApiKey (some "") ⟨g, ge, gg⟩ = Except.error apiKeyErrorMessage ↔
      truthyStr g = false ∧ truthyStr ge = false ∧ truthyStr gg = false) := by
  refine ⟨rfl, ?_, ?_, ?_, ?_⟩
  · intro s hg hs
    subst hg
    rw [initApiKey_empty_param, initApiKey_none_eq]
    have ht : truthyStr (some s) = true := by simp [truthyStr, hs]
    simp only [get_api_key, pyOrStr, ht, if_true]
    simp [hs]
  · intro hg s hge hs
    subst hge
    rw [initApiKey_empty_param, initApiKey_none_eq]
    have ht : truthyStr (some s) = true := by simp [truthyStr, hs]
    simp only [get_api_key, pyOrStr, hg, ht, if_true, Bool.false_eq_true, if_false]
    simp [hs]
  · intro hg hge s hgg hs
    subst hgg
    rw [initApiKey_empty_param, initApiKey_none_eq]
    have ht : truthyStr (some s) = true := by simp [truthyStr, hs]
    simp only [get_api_key, pyOrStr, hg, hge, ht, if_true, Bool.false_eq_true,
      if_false]
    simp [hs]
  · rw [initApiKey_empty_param, initApiKey_error_iff]
    have ht : truthyStr (get_api_key ⟨g, ge, gg⟩) =
        (truthyStr g || (truthyStr ge || truthyStr gg)) := by
      simp [get_api_key, truthyStr_pyOrStr]
    rw [ht]
    simp [Bool.or_eq_false_iff, and_assoc]

/-- **C5 counterexample.** The claim that the "Additional requirements"
section appears in the prompt iff custom instructions were supplied on
the company data fails for supplied-but-empty instructions: with
`custom_prompt_instructions` set to the empty string, the instructions
are supplied, yet the section is omitted (the code tests Python
truthiness, not presence). -/
theorem prompt_additional_requirements_counterexample :
    emptyInstructionsRequest.company_data.custom_prompt_instructions = some "" ∧
    pyIn "Additional requirements"
        (build_professional_prompt emptyInstructionsRequest "A scene.") = false := by
  refine ⟨rfl, ?_⟩
  decide

/-- **C5 (amended).** For every request and scene description, the
prompt builder's output is the newline-joined block holding, in fixed
order, the framing line referencing the keyword, the scene text, the
photography-style section, the editorial-requirements section, and the
technical-specs section; the "Additional requirements" section appears
iff non-empty custom instructions were supplied on the company data,
and when it appears it appears last with the instructions verbatim. -/
theorem prompt_sections_fixed_order (request : ImageRequest)
    (scene_description : String) :
    (truthyStr request.company_data.custom_prompt_instructions = false →
      build_professional_prompt request scene_description =
        "Professional editorial photograph for a business article about '" ++
          request.keyword ++
          "'.\n\nScene: " ++ scene_description ++
          "\n\nPhotography style:\n- Professional editorial quality (Canon 5D Mark IV, 35mm f/2.8)\n- Natural lighting with soft shadows, not harsh or uniform\n- Rule of thirds composition, authentic documentary style\n- Shallow depth of field with natural background blur\n- Modern color grading with professional warmth\n- Subtle film grain for authenticity\n\nEditorial requirements:\n- Candid, authentic moment - not posed or stock-photo-like\n- Real workplace environment with natural details\n- Professional but approachable atmosphere\n- No text, logos, or branding visible in image\n- Diverse and inclusive representation when people are shown\n\nTechnical specs: 16:9 landscape, high resolution, editorial quality\nStyle reference: Bloomberg Businessweek, Harvard Business Review") ∧
    (∀ s, request.company_data.custom_prompt_instructions = some s → s ≠ "" →
      build_professional_prompt request scene_description =
        "Professional editorial photograph for a business article about '" ++
          request.keyword ++
          "'.\n\nScene: " ++ scene_description ++
          "\n\nPhotography style:\n- Professional editorial quality (Canon 5D Mark IV, 35mm f/2.8)\n- Natural lighting with soft shadows, not harsh or uniform\n- Rule of thirds composition, authentic documentary style\n- Shallow depth of field with natural background blur\n- Modern color grading with professional warmth\n- Subtle film grain for authenticity\n\nEditorial requirements:\n- Candid, authentic moment - not posed or stock-photo-like\n- Real workplace environment with natural details\n- Professional but approachable atmosphere\n- No text, logos, or branding visible in image\n- Diverse and inclusive representation when people are shown\n\nTechnical specs: 16:9 landscape, high resolution, editorial quality\nStyle reference: Bloomberg Businessweek, Harvard Business Review\n\nAdditional requirements: " ++
          s) := by
  constructor
  · intro h
    apply String.ext
    rcases hci : request.company_data.custom_prompt_instructions with _ | s
    · simp only [build_professional_prompt, hci]
      simp [prompt_parts, String.intercalate, String.intercalate.go,
        String.data_append]
    · have hs : (s != "") = false := by
        rw [hci] at h
        exact h
      simp only [build_professional_prompt, hci, hs, Bool.false_eq_true,
        if_false]
      simp [prompt_parts, String.intercalate, String.intercalate.go,
        String.data_append]
  · intro s hci hs
    apply String.ext
    have hst : (s != "") = true := by
      simpa using hs
    simp only [build_professional_prompt, hci, hst, if_true]
    simp [prompt_parts, String.intercalate, String.intercalate.go,
      String.data_append]

/-- Witness for the amended C5: the base prompt for a concrete request
without instructions, and the appended section for one with
instructions. -/
theorem prompt_sections_fixed_order_witness :
    build_professional_prompt sampleRequest "A scene." =
      "Professional editorial photograph for a business article about 'machine learning'.\n\nScene: A scene.\n\nPhotography style:\n- Professional editorial quality (Canon 5D Mark IV, 35mm f/2.8)\n- Natural lighting with soft shadows, not harsh or uniform\n- Rule of thirds composition, authentic documentary style\n- Shallow depth of field with natural background blur\n- Modern color grading with professional warmth\n- Subtle film grain for authenticity\n\nEditorial requirements:\n- Candid, authentic moment - not posed or stock-photo-like\n- Real workplace environment with natural details\n- Professional but approachable atmosphere\n- No text, logos, or branding visible in image\n- Diverse and inclusive representation when people are shown\n\nTechnical specs: 16:9 landscape, high resolution, editorial quality\nStyle reference: Bloomberg Businessweek, Harvard Business Review" := by
  have h := (prompt_sections_fixed_order sampleRequest "A scene.").1 rfl
  rw [h]
  rfl

/-- Witness for C10: with the first variable empty, the second unset
and the third set, an empty-string parameter resolves to the third
variable's value; with all three unusable, construction fails. -/
theorem empty_api_key_falls_through_witness :
    initApiKey (some "") ⟨some "", none, some "k3"⟩ = Except.ok "k3" ∧
    (initApiKey (some "") ⟨some "", none, some ""⟩ =
        Except.error apiKeyErrorMessage ↔ True) :=
  ⟨(empty_api_key_falls_through (some "") none (some "k3")).2.2.2.1
      (by decide) (by decide) "k3" rfl (by decide),
   by
    rw [(empty_api_key_falls_through (some "") none (some "")).2.2.2.2]
    simp [truthyStr]⟩

end OpenImagen
